import Mathlib

namespace GroupChat

/-! Shallow embedding of the group-chat supervisor scheduling slice
(`generateAIGroupChat`): the data model, the store state, and the internal
actions, with observable effects (timer arming, cancellation, message
creation, collaborator calls, logging) recorded in an event trace.
The asynchronous TS code is embedded as explicit state passing following the
single-threaded cooperative scheduling model; awaited external calls are
parameterized by an environment providing their outcomes.  Pure context
assembly (prompt building, author annotation) has no observable effect on the
store and is recorded only where the slice branches on it. -/

/-- Message roles used by the chat store. -/
inductive Role where
  | user
  | assistant
  | system
  | tool
deriving DecidableEq, Repr

/-- A chat message as far as this slice inspects it: role, content,
originating agent id, group id, direct-message target and tool-call list. -/
structure ChatMessage where
  id : String
  role : Role
  content : String
  agentId : Option String := none
  groupId : Option String := none
  targetId : Option String := none
  tools : Option (List String) := none
deriving DecidableEq, Repr

/-- An uploaded file reference (only its id is used by this slice). -/
structure FileItem where
  id : String
deriving DecidableEq, Repr

/-- A group member agent from the session store roster. -/
structure Agent where
  id : String
  title : Option String := none
  provider : Option String := none
  model : Option String := none
  systemRole : Option String := none
deriving DecidableEq, Repr

/-- Per-group configuration from the chat-group store.  `responseSpeed` is
kept as a raw string because the source switches on the runtime value with a
default branch for anything outside the three known settings. -/
structure GroupConfig where
  responseSpeed : Option String := none
  orchestratorModel : Option String := none
  orchestratorProvider : Option String := none
  systemPrompt : Option String := none
deriving DecidableEq, Repr

/-- A supervisor decision: which agent responds, optionally to whom. -/
structure Decision where
  id : String
  target : Option String := none
deriving DecidableEq, Repr

/-- Parameters of `sendGroupMessage`. -/
structure SendParams where
  groupId : String
  message : String
  files : Option (List FileItem) := none
  onlyAddUserMessage : Bool := false
  targetMemberId : Option String := none
deriving DecidableEq, Repr

/-- Modelled from the spec: the fixed loading sentinel content used for
placeholder assistant messages (`LOADING_FLAT` from the message constants
module, which is not under src). -/
def LOADING_FLAT : String := "..."

/-- Modelled from the spec: message history is addressable by
(groupId, topicId) (`messageMapKey` from the chat-store utils, not under
src); the key combines the group id with the (defaulted) topic id and thus
differs from the bare group id. -/
def messageMapKey (groupId : String) (topicId : Option String) : String :=
  groupId ++ "_" ++ topicId.getD "default"

/-- Modelled from the spec: the per-group boolean loading flags are kept as a
list of group ids (`toggleBooleanList` from the store utils, not under src):
toggling true inserts the id, toggling false removes it. -/
def toggleBooleanList (ids : List String) (id : String) (loading : Bool) : List String :=
  if loading then (if ids.contains id then ids else ids ++ [id])
  else ids.filter (fun x => !(x == id))

/-- Modelled from the spec: an agent sees messages addressed publicly plus
direct messages where it is the sender or the declared target
(`filterMessagesForAgent` from the prompts module, not under src). -/
def filterMessagesForAgent (messages : List ChatMessage) (agentId : String) : List ChatMessage :=
  messages.filter (fun m =>
    match m.targetId with
    | none => true
    | some t => t == agentId || m.agentId == some agentId)

/-- JS falsiness of `message.trim()`: the text trims to the empty string
exactly when every character is whitespace. -/
def blankMessage (m : String) : Bool := m.data.all Char.isWhitespace

/-- JS truthiness of `x || undefined` on an optional string: the empty string
collapses to `undefined`. -/
def presence (o : Option String) : Option String :=
  match o with
  | some x => if x == "" then none else some x
  | none => none

/-- Debounce delay table keyed by the group's `responseSpeed` setting
(source: `getDebounceThreshold`, part_000 lines 36-51). -/
def getDebounceThreshold (responseSpeed : Option String) : Nat :=
  if responseSpeed == some "fast" then 3000
  else if responseSpeed == some "medium" then 5000
  else if responseSpeed == some "slow" then 8000
  else 5000

/-- A tool-calling assistant message that requires a follow-up
(source: `isToolCallMessage`, part_000 lines 56-58): the `tools` field is
present and non-empty. -/
def isToolCallMessage (message : ChatMessage) : Bool :=
  message.role == Role.assistant &&
    (match message.tools with
     | some ts => decide (0 < ts.length)
     | none => false)

/-- Whether supervisor decisions must be skipped given recent messages
(source: `shouldAvoidSupervisorDecision`, part_000 lines 64-83). -/
def shouldAvoidSupervisorDecision (messages : List ChatMessage) : Bool :=
  if messages.length == 0 then true
  else
    match messages.getLast? with
    | none => true
    | some lastMessage =>
      if isToolCallMessage lastMessage then true
      else if lastMessage.role == Role.tool then true
      else false

/-- Association-list lookup modelling reading a key of a JS object. -/
def alookup {α : Type} : List (String × α) → String → Option α
  | [], _ => none
  | p :: l, k => if p.1 == k then some p.2 else alookup l k

/-- Association-list key removal modelling `delete obj[k]`. -/
def aerase {α : Type} : List (String × α) → String → List (String × α)
  | [], _ => []
  | p :: l, k => if p.1 == k then aerase l k else p :: aerase l k

/-- Association-list key update modelling `obj[k] = v`. -/
def aset {α : Type} (l : List (String × α)) (k : String) (v : α) : List (String × α) :=
  aerase l k ++ [(k, v)]

/-- Observable effects emitted by the slice.  Collaborator calls that live in
other store slices (message creation, completion fetch, view refresh,
tool-call execution, chat-loading toggle at task end, dispatch of a message
patch, console logging) are recorded as events. -/
inductive Ev where
  | setActiveGroup (groupId : String)
  | setCreating (value : Bool)
  | createUserMessage (groupId : String)
  | clearTimer (timerId : Nat)
  | abortToken (tokenId : Nat)
  | armTimer (timerId : Nat) (groupId : String) (delay : Nat)
  | decideCalled (groupId : String)
  | spawnTask (agentId : String)
  | createPlaceholder (groupId : String) (agentId : String)
  | fetchMessage (agentId : String)
  | markToolsCalling (messageId : String)
  | refreshView
  | runToolCalls (messageId : String)
  | dispatchErrorUpdate (messageId : String) (content : String)
      (errorType : String) (errorMessage : String)
  | logError (tag : String)
  | logInfo (tag : String)
  | taskDone (agentId : String)
deriving DecidableEq, Repr

/-- Discriminator for scheduler-arming events. -/
def isArmEv : Ev → Bool
  | Ev.armTimer _ _ _ => true
  | _ => false

/-- Discriminator for task-spawn events. -/
def isSpawnEv : Ev → Bool
  | Ev.spawnTask _ => true
  | _ => false

/-- Discriminator for task-completion events. -/
def isTaskDoneEv : Ev → Bool
  | Ev.taskDone _ => true
  | _ => false

/-- Discriminator for message-view refresh events. -/
def isRefreshEv : Ev → Bool
  | Ev.refreshView => true
  | _ => false

/-- Discriminator for error-overwrite dispatch events. -/
def isErrorDispatchEv : Ev → Bool
  | Ev.dispatchErrorUpdate _ _ _ _ => true
  | _ => false

/-- Discriminator for reportable-error log events. -/
def isLogErrorEv : Ev → Bool
  | Ev.logError _ => true
  | _ => false

/-- The chat store state touched by this slice.  Timer handles and abort
controllers are represented by fresh natural ids; the `cancelledTimers`,
`abortedTokens` and `armedTimers` lists record the history of arming and
cancellation so that liveness of a handle is observable. -/
structure ChatState where
  messagesMap : List (String × List ChatMessage) := []
  activeTopicId : Option String := none
  supervisorDebounceTimers : List (String × Nat) := []
  supervisorDecisionAbortControllers : List (String × Nat) := []
  supervisorDecisionLoading : List String := []
  isCreatingMessage : Bool := false
  nextTimerId : Nat := 0
  nextTokenId : Nat := 0
  cancelledTimers : List Nat := []
  abortedTokens : List Nat := []
  armedTimers : List (Nat × String) := []
deriving DecidableEq, Repr

/-- Outcome of the external supervisor decision call. -/
inductive DecideResult where
  | ok (decisions : List Decision)
  | abortError
  | failure (message : String)
deriving DecidableEq, Repr

/-- Outcome of a message-creation call: a possibly absent new id, or a
thrown error. -/
inductive CreateResult where
  | ok (messageId : Option String)
  | failure (message : String)
deriving DecidableEq, Repr

/-- Outcome of the completion collaborator: whether a function call was
issued, or a thrown error. -/
inductive FetchResult where
  | ok (isFunctionCall : Bool)
  | failure (message : String)
deriving DecidableEq, Repr

/-- External collaborators and store snapshots consulted by the slice. -/
structure Env where
  agents : List Agent := []
  groupConfig : GroupConfig := {}
  nickName : Option String := none
  createUserResult : CreateResult := CreateResult.ok none
  createAgentResult : String → CreateResult := fun _ => CreateResult.ok none
  fetchResult : String → FetchResult := fun _ => FetchResult.ok false
  decideResult : DecideResult := DecideResult.ok []

/-- Toggles the supervisor loading flag (source:
`internal_toggleSupervisorLoading`, part_000 lines 460-472). -/
def internal_toggleSupervisorLoading (s : ChatState) (loading : Bool)
    (groupId : Option String) : ChatState :=
  { s with supervisorDecisionLoading :=
      match groupId with
      | some g => toggleBooleanList s.supervisorDecisionLoading g loading
      | none => if loading then s.supervisorDecisionLoading else [] }

/-- Cancels a group's pending debounce timer and in-flight decision token,
then clears its loading flag (source: `internal_cancelSupervisorDecision`,
part_000 lines 519-564).  `clearTimeout` and `abort` are recorded by moving
the handle id into the cancelled/aborted history. -/
def internal_cancelSupervisorDecision (s : ChatState) (groupId : String) :
    ChatState × List Ev :=
  let existingTimer := alookup s.supervisorDebounceTimers groupId
  let existingAbortController := alookup s.supervisorDecisionAbortControllers groupId
  let s1 :=
    match existingTimer with
    | some t =>
        { s with cancelledTimers := t :: s.cancelledTimers,
                 supervisorDebounceTimers := aerase s.supervisorDebounceTimers groupId }
    | none => s
  let e1 : List Ev := match existingTimer with | some t => [Ev.clearTimer t] | none => []
  let s2 :=
    match existingAbortController with
    | some tk =>
        { s1 with abortedTokens := tk :: s1.abortedTokens,
                  supervisorDecisionAbortControllers :=
                    aerase s1.supervisorDecisionAbortControllers groupId }
    | none => s1
  let e2 : List Ev :=
    match existingAbortController with | some tk => [Ev.abortToken tk] | none => []
  (internal_toggleSupervisorLoading s2 false (some groupId), e1 ++ e2)

/-- Arms the debounced supervisor decision: cancel the predecessor, compute
the delay from the group's `responseSpeed`, schedule a fresh timer and store
its handle (source: `internal_triggerSupervisorDecisionDebounced`, part_000
lines 474-517). -/
def internal_triggerSupervisorDecisionDebounced (cfg : GroupConfig) (s : ChatState)
    (groupId : String) : ChatState × List Ev :=
  let rc := internal_cancelSupervisorDecision s groupId
  let debounceThreshold := getDebounceThreshold cfg.responseSpeed
  let timerId := rc.1.nextTimerId
  let s2 :=
    { rc.1 with nextTimerId := rc.1.nextTimerId + 1,
                armedTimers := (timerId, groupId) :: rc.1.armedTimers,
                supervisorDebounceTimers :=
                  aset rc.1.supervisorDebounceTimers groupId timerId }
  (s2, rc.2 ++ [Ev.armTimer timerId groupId debounceThreshold])

/-- Cancels every pending timer and aborts every in-flight token across all
groups, then empties both registries (source:
`internal_cancelAllSupervisorDecisions`, part_000 lines 566-600).  JS object
keys are unique, so iterating the keys and reading each entry is the same as
taking every stored value. -/
def internal_cancelAllSupervisorDecisions (s : ChatState) : ChatState × List Ev :=
  let timerGroupIds := s.supervisorDebounceTimers.map (fun p => p.1)
  let abortControllerGroupIds := s.supervisorDecisionAbortControllers.map (fun p => p.1)
  if 0 < timerGroupIds.length || 0 < abortControllerGroupIds.length then
    let clearedTimers := s.supervisorDebounceTimers.map (fun p => p.2)
    let abortedToks := s.supervisorDecisionAbortControllers.map (fun p => p.2)
    ({ s with cancelledTimers := clearedTimers ++ s.cancelledTimers,
              abortedTokens := abortedToks ++ s.abortedTokens,
              supervisorDebounceTimers := [],
              supervisorDecisionAbortControllers := [] },
     clearedTimers.map Ev.clearTimer ++ abortedToks.map Ev.abortToken)
  else (s, [])

/-- The try body of `internal_processAgentMessage` (source: part_000 lines
301-427).  The third component is the thrown error, if any; state mutations
performed before a throw persist.  Prompt assembly (lines 327-395) is pure
and unobservable except for the message filter recorded here. -/
def internal_processAgentTry (env : Env) (s : ChatState) (groupId agentId : String)
    (targetId : Option String) : ChatState × List Ev × Option String :=
  let allMessages := (alookup s.messagesMap (messageMapKey groupId s.activeTopicId)).getD []
  if allMessages.length == 0 then (s, [], none)
  else
    let _messages := filterMessagesForAgent allMessages agentId
    match env.agents.find? (fun agent => agent.id == agentId) with
    | none => (s, [Ev.logError "agentNotFound"], none)
    | some agentData =>
      match presence agentData.provider, presence agentData.model with
      | some _agentProvider, some _agentModel =>
        (match env.createAgentResult agentId with
         | CreateResult.failure msg => (s, [Ev.createPlaceholder groupId agentId], some msg)
         | CreateResult.ok assistantId? =>
           match assistantId? with
           | some assistantId =>
             (match env.fetchResult agentId with
              | FetchResult.failure msg =>
                  (s, [Ev.createPlaceholder groupId agentId, Ev.fetchMessage agentId],
                   some msg)
              | FetchResult.ok isFunctionCall =>
                  if isFunctionCall then
                    let r := internal_triggerSupervisorDecisionDebounced env.groupConfig s
                      groupId
                    (r.1, [Ev.createPlaceholder groupId agentId, Ev.fetchMessage agentId,
                           Ev.markToolsCalling assistantId, Ev.refreshView,
                           Ev.runToolCalls assistantId] ++ r.2, none)
                  else
                    (s, [Ev.createPlaceholder groupId agentId, Ev.fetchMessage agentId,
                         Ev.refreshView], none))
           | none => (s, [Ev.createPlaceholder groupId agentId, Ev.refreshView], none))
      | some _, none => (s, [Ev.logError "noProviderOrModel"], none)
      | none, some _ => (s, [Ev.logError "noProviderOrModel"], none)
      | none, none => (s, [Ev.logError "noProviderOrModel"], none)

/-- The catch block of `internal_processAgentMessage` (source: part_000 lines
428-449): log the cause, then look up the message list under the bare group
id key and rewrite the first assistant message of this group still holding
the loading sentinel. -/
def internal_processAgentCatch (s : ChatState) (groupId : String) (errMsg : String) :
    ChatState × List Ev :=
  let currentMessages := (alookup s.messagesMap groupId).getD []
  let errorMessage? := currentMessages.find? (fun m =>
    m.role == Role.assistant && m.groupId == some groupId && m.content == LOADING_FLAT)
  match errorMessage? with
  | some em =>
      (s, [Ev.logError "processAgentMessage",
           Ev.dispatchErrorUpdate em.id
             ("Error: Failed to generate response. " ++ errMsg)
             "CreateMessageError" errMsg])
  | none => (s, [Ev.logError "processAgentMessage"])

/-- One per-agent response task (source: `internal_processAgentMessage`,
part_000 lines 288-453): the try body, the catch handler on a throw, and the
finally block (`internal_toggleChatLoading(false)`) recorded as `taskDone`. -/
def internal_processAgentMessage (env : Env) (s : ChatState) (groupId agentId : String)
    (targetId : Option String) : ChatState × List Ev :=
  let r := internal_processAgentTry env s groupId agentId targetId
  match r.2.2 with
  | none => (r.1, r.2.1 ++ [Ev.taskDone agentId])
  | some msg =>
      let rc := internal_processAgentCatch r.1 groupId msg
      (rc.1, r.2.1 ++ rc.2 ++ [Ev.taskDone agentId])

/-- The fan-out of `internal_executeAgentResponses`: one task per decision.
Tasks are serialized in decision order following the single-threaded
cooperative scheduling model; each task always settles (its catch absorbs
every failure), matching `Promise.all` over never-rejecting promises. -/
def runGroupTasks (env : Env) (groupId : String) :
    List Decision → ChatState → ChatState × List Ev
  | [], s => (s, [])
  | d :: ds, s =>
      let r := internal_processAgentMessage env s groupId d.id d.target
      let rrest := runGroupTasks env groupId ds r.1
      (rrest.1, Ev.spawnTask d.id :: (r.2 ++ rrest.2))

/-- Executes agent responses for a decision list and re-arms the scheduler
after all tasks settle when the list is non-empty (source:
`internal_executeAgentResponses`, part_000 lines 267-285). -/
def internal_executeAgentResponses (env : Env) (s : ChatState) (groupId : String)
    (decisions : List Decision) : ChatState × List Ev :=
  let rt := runGroupTasks env groupId decisions s
  if 0 < decisions.length then
    let ra := internal_triggerSupervisorDecisionDebounced env.groupConfig rt.1 groupId
    (ra.1, rt.2 ++ ra.2)
  else rt

/-- The supervisor decision invocation (source:
`internal_triggerSupervisorDecision`, part_000 lines 194-265): guard, token
registration, loading flag, the decision call with its three outcomes, and
the finally block clearing the flag and the token. -/
def internal_triggerSupervisorDecision (env : Env) (s : ChatState) (groupId : String) :
    ChatState × List Ev :=
  let messages := (alookup s.messagesMap (messageMapKey groupId s.activeTopicId)).getD []
  if messages.length == 0 then (s, [])
  else if shouldAvoidSupervisorDecision messages then
    (s, [Ev.logInfo "skipSupervisorDecision"])
  else
    let tokenId := s.nextTokenId
    let s1 :=
      { s with nextTokenId := s.nextTokenId + 1,
               supervisorDecisionAbortControllers :=
                 aset s.supervisorDecisionAbortControllers groupId tokenId }
    let s2 := internal_toggleSupervisorLoading s1 true (some groupId)
    let rBody : ChatState × List Ev :=
      match env.decideResult with
      | DecideResult.ok decisions =>
          if 0 < decisions.length then
            let re := internal_executeAgentResponses env s2 groupId decisions
            (re.1, Ev.decideCalled groupId :: re.2)
          else (s2, [Ev.decideCalled groupId])
      | DecideResult.abortError =>
          (s2, [Ev.decideCalled groupId, Ev.logInfo "supervisorAborted"])
      | DecideResult.failure _ =>
          (s2, [Ev.decideCalled groupId, Ev.logError "supervisorFailed"])
    let s5 := internal_toggleSupervisorLoading rBody.1 false (some groupId)
    ({ s5 with supervisorDecisionAbortControllers :=
         aerase s5.supervisorDecisionAbortControllers groupId }, rBody.2)

/-- Sends a user message to the group and arms the decision scheduler
(source: `sendGroupMessage`, part_000 lines 149-190).  The finally block
always clears `isCreatingMessage` once the guard has been passed; in the
only-add-user-message branch the flag is cleared twice (explicitly, then by
the finally running after the return). -/
def sendGroupMessage (env : Env) (s : ChatState) (p : SendParams) : ChatState × List Ev :=
  if blankMessage p.message &&
     (match p.files with | none => true | some fs => fs.length == 0) then (s, [])
  else
    let e0 : List Ev := [Ev.setActiveGroup p.groupId, Ev.setCreating true]
    let s2 := { s with isCreatingMessage := true }
    match env.createUserResult with
    | CreateResult.failure _ =>
        ({ s2 with isCreatingMessage := false },
         e0 ++ [Ev.createUserMessage p.groupId, Ev.logError "sendGroupMessage",
                Ev.setCreating false])
    | CreateResult.ok messageId? =>
        if p.onlyAddUserMessage then
          ({ s2 with isCreatingMessage := false },
           e0 ++ [Ev.createUserMessage p.groupId, Ev.setCreating false,
                  Ev.setCreating false])
        else
          match messageId? with
          | some _ =>
              let rt := internal_triggerSupervisorDecisionDebounced env.groupConfig s2
                p.groupId
              ({ rt.1 with isCreatingMessage := false },
               e0 ++ [Ev.createUserMessage p.groupId] ++ rt.2 ++ [Ev.setCreating false])
          | none =>
              ({ s2 with isCreatingMessage := false },
               e0 ++ [Ev.createUserMessage p.groupId, Ev.setCreating false])

/-- The timers for a group that have been armed and never cancelled: the
pending scheduled invocations observable from the arming history. -/
def scheduledFor (s : ChatState) (g : String) : List Nat :=
  (s.armedTimers.filter
      (fun p => p.2 == g && !(decide (p.1 ∈ s.cancelledTimers)))).map
    (fun p => p.1)

/-- Bookkeeping facts holding in every reachable state of the timer
registry: recorded timer ids stay below the fresh counter, and an armed
timer that was never cancelled is exactly the one registered for its group. -/
def TimerBookkeeping (s : ChatState) : Prop :=
  (∀ p ∈ s.armedTimers, p.1 < s.nextTimerId) ∧
  (∀ t ∈ s.cancelledTimers, t < s.nextTimerId) ∧
  (∀ p ∈ s.supervisorDebounceTimers, p.2 < s.nextTimerId) ∧
  (∀ p ∈ s.armedTimers, p.1 ∉ s.cancelledTimers →
    alookup s.supervisorDebounceTimers p.2 = some p.1)

/-! Concrete states, environments and request parameters used by the
witness and counterexample theorems below. -/

/-- Environment with all collaborator defaults, used for concrete runs. -/
def envDefault : Env := {}

/-- The default (empty) chat store state. -/
def stateDefault : ChatState := {}

/-- A blank send request: whitespace-only message, no files. -/
def paramsC9 : SendParams := { groupId := "g", message := "   " }

/-- A state with one group tracked by the token registry whose loading flag
is set. -/
def stateC5 : ChatState :=
  { supervisorDecisionAbortControllers := [("g", 0)],
    supervisorDecisionLoading := ["g"] }

/-- A pending placeholder for agent a of group g, holding the sentinel. -/
def msgC6 : ChatMessage :=
  { id := "m1", role := Role.assistant, content := LOADING_FLAT,
    agentId := some "a", groupId := some "g" }

/-- A state whose (group, topic)-keyed history holds that placeholder. -/
def stateC6 : ChatState := { messagesMap := [("g_default", [msgC6])] }

/-- A roster for agent a whose completion call throws. -/
def envC6 : Env :=
  { agents := [{ id := "a", provider := some "p", model := some "m" }],
    createAgentResult := fun _ => CreateResult.ok (some "m1"),
    fetchResult := fun _ => FetchResult.failure "boom" }

/-- A sibling placeholder of agent b that happens to sit under the bare
group id key, while the proper (group, topic) history holds a user message. -/
def msgC6b : ChatMessage :=
  { id := "mb", role := Role.assistant, content := LOADING_FLAT,
    agentId := some "b", groupId := some "g" }

/-- A state with messages under both the bare key and the proper key. -/
def stateC6w : ChatState :=
  { messagesMap := [("g", [msgC6b]),
                    ("g_default", [{ id := "u1", role := Role.user, content := "hi" }])] }

/-- A history whose most recent message is a tool response. -/
def stateC3 : ChatState :=
  { messagesMap := [("g_default", [{ id := "t1", role := Role.tool, content := "r" }])] }

/-- A blank send request that nevertheless sets onlyAddUserMessage. -/
def paramsC10 : SendParams := { groupId := "g", message := " ", onlyAddUserMessage := true }

/-- A non-blank send request with onlyAddUserMessage set. -/
def paramsC10b : SendParams := { groupId := "g", message := "hi", onlyAddUserMessage := true }

/-- A roster with agents a and b, where b's completion call fails. -/
def envC2 : Env :=
  { agents := [{ id := "a", provider := some "p", model := some "m" },
               { id := "b", provider := some "p", model := some "m" }],
    createAgentResult := fun _ => CreateResult.ok (some "mid"),
    fetchResult := fun x => if x == "b" then FetchResult.failure "boom"
      else FetchResult.ok false }

/-- A history with one user message under the (group, topic) key. -/
def stateC2 : ChatState :=
  { messagesMap := [("g_default", [{ id := "u1", role := Role.user, content := "hi" }])] }

/-- A one-agent roster whose completion call reports a function call. -/
def envC7 : Env :=
  { agents := [{ id := "a", provider := some "p", model := some "m" }],
    createAgentResult := fun _ => CreateResult.ok (some "mid"),
    fetchResult := fun _ => FetchResult.ok true }

/-- A history with one user message, for the tool-call branch witness. -/
def stateC7 : ChatState :=
  { messagesMap := [("g_default", [{ id := "u1", role := Role.user, content := "hi" }])] }

/-- A history ending in a plain user message, which passes the guard. -/
def stateC4 : ChatState :=
  { messagesMap := [("g_default", [{ id := "u1", role := Role.user, content := "hi" }])] }

/-- An environment whose decision call raises the cancellation outcome. -/
def envC4 : Env := { decideResult := DecideResult.abortError }

/-- A reachable state with one registered timer and one in-flight token. -/
def stateC1 : ChatState :=
  { supervisorDebounceTimers := [("g", 0)],
    supervisorDecisionAbortControllers := [("g", 5)],
    armedTimers := [(0, "g")],
    nextTimerId := 1,
    nextTokenId := 6 }

/-! Helper lemmas about the association-list registry operations and the
loading-flag toggle. -/

theorem alookup_aerase_self {α : Type} (l : List (String × α)) (k : String) :
    alookup (aerase l k) k = none := by
  induction l with
  | nil => rfl
  | cons p l ih =>
      by_cases h : p.1 = k
      · simpa [aerase, h] using ih
      · simpa [aerase, alookup, h] using ih

theorem alookup_aerase_ne {α : Type} (l : List (String × α)) (k k2 : String)
    (h : k2 ≠ k) : alookup (aerase l k) k2 = alookup l k2 := by
  induction l with
  | nil => rfl
  | cons p l ih =>
      by_cases hp : p.1 = k
      · have : ¬(p.1 == k2) = true := by simp [hp]; exact fun hc => h hc.symm
        simp only [aerase, if_pos (by simp [hp] : (p.1 == k) = true)]
        rw [ih]
        simp [alookup, this]
      · simp only [aerase, if_neg (by simp [hp] : ¬(p.1 == k) = true)]
        simp only [alookup]
        by_cases hk2 : p.1 = k2
        · simp [hk2]
        · simp only [if_neg (by simp [hk2] : ¬(p.1 == k2) = true)]
          exact ih

theorem alookup_append {α : Type} (l1 l2 : List (String × α)) (k : String) :
    alookup (l1 ++ l2) k =
      (match alookup l1 k with
       | some v => some v
       | none => alookup l2 k) := by
  induction l1 with
  | nil => simp [alookup]
  | cons p l ih =>
      by_cases h : p.1 = k
      · simp [alookup, h]
      · simp only [List.cons_append, alookup, if_neg (by simp [h] : ¬(p.1 == k) = true)]
        exact ih

theorem alookup_aset_self {α : Type} (l : List (String × α)) (k : String) (v : α) :
    alookup (aset l k v) k = some v := by
  rw [aset, alookup_append, alookup_aerase_self]
  simp [alookup]

theorem alookup_aset_ne {α : Type} (l : List (String × α)) (k k2 : String) (v : α)
    (h : k2 ≠ k) : alookup (aset l k v) k2 = alookup l k2 := by
  rw [aset, alookup_append, alookup_aerase_ne l k k2 h]
  cases hl : alookup l k2 with
  | some w => simp
  | none =>
      have : ¬(k == k2) = true := by simp; exact fun hc => h hc.symm
      simp [alookup, this]

theorem mem_of_alookup_eq_some {α : Type} {l : List (String × α)} {k : String} {v : α}
    (h : alookup l k = some v) : (k, v) ∈ l := by
  induction l with
  | nil => simp [alookup] at h
  | cons p l ih =>
      by_cases hp : p.1 = k
      · simp only [alookup, if_pos (by simp [hp] : (p.1 == k) = true)] at h
        obtain ⟨a, w⟩ := p
        simp only at hp
        subst hp
        simp only [Option.some.injEq] at h
        subst h
        exact List.mem_cons_self _ _
      · simp only [alookup, if_neg (by simp [hp] : ¬(p.1 == k) = true)] at h
        exact List.mem_cons_of_mem _ (ih h)

theorem mem_of_mem_aerase {α : Type} {l : List (String × α)} {k : String}
    {p : String × α} (h : p ∈ aerase l k) : p ∈ l := by
  induction l with
  | nil => simpa [aerase] using h
  | cons q l ih =>
      by_cases hq : q.1 = k
      · simp only [aerase, if_pos (by simp [hq] : (q.1 == k) = true)] at h
        exact List.mem_cons_of_mem _ (ih h)
      · simp only [aerase, if_neg (by simp [hq] : ¬(q.1 == k) = true)] at h
        rcases List.mem_cons.mp h with h1 | h2
        · exact h1 ▸ List.mem_cons_self _ _
        · exact List.mem_cons_of_mem _ (ih h2)

theorem not_mem_toggleBooleanList_false (l : List String) (a : String) :
    a ∉ toggleBooleanList l a false := by
  intro h
  simp only [toggleBooleanList, Bool.false_eq_true, if_false] at h
  rw [List.mem_filter] at h
  simp at h

theorem aerase_eq_of_alookup_none {α : Type} {l : List (String × α)} {k : String}
    (h : alookup l k = none) : aerase l k = l := by
  induction l with
  | nil => rfl
  | cons p l ih =>
      by_cases hp : p.1 = k
      · simp [alookup, hp] at h
      · simp only [alookup, if_neg (by simp [hp] : ¬(p.1 == k) = true)] at h
        simp only [aerase, if_neg (by simp [hp] : ¬(p.1 == k) = true)]
        rw [ih h]

theorem aerase_idem {α : Type} (l : List (String × α)) (k : String) :
    aerase (aerase l k) k = aerase l k :=
  aerase_eq_of_alookup_none (alookup_aerase_self l k)

theorem aset_aerase {α : Type} (l : List (String × α)) (k : String) (v : α) :
    aset (aerase l k) k v = aset l k v := by
  unfold aset
  rw [aerase_idem]

/-! Helper lemmas about event traces of the scheduler operations. -/

theorem cancel_trace_count_zero (s : ChatState) (g : String) (p : Ev → Bool)
    (hclear : ∀ t, p (Ev.clearTimer t) = false)
    (habort : ∀ t, p (Ev.abortToken t) = false) :
    (internal_cancelSupervisorDecision s g).2.countP p = 0 := by
  cases ht : alookup s.supervisorDebounceTimers g <;>
    cases hc : alookup s.supervisorDecisionAbortControllers g <;>
      simp [internal_cancelSupervisorDecision, ht, hc, List.countP_cons, hclear, habort]

theorem trigger_trace_eq (cfg : GroupConfig) (s : ChatState) (g : String) :
    (internal_triggerSupervisorDecisionDebounced cfg s g).2 =
      (internal_cancelSupervisorDecision s g).2 ++
        [Ev.armTimer (internal_cancelSupervisorDecision s g).1.nextTimerId g
          (getDebounceThreshold cfg.responseSpeed)] := rfl

theorem trigger_trace_count_zero (cfg : GroupConfig) (s : ChatState) (g : String)
    (p : Ev → Bool)
    (hclear : ∀ t, p (Ev.clearTimer t) = false)
    (habort : ∀ t, p (Ev.abortToken t) = false)
    (harm : ∀ t g2 d, p (Ev.armTimer t g2 d) = false) :
    (internal_triggerSupervisorDecisionDebounced cfg s g).2.countP p = 0 := by
  rw [trigger_trace_eq, List.countP_append,
    cancel_trace_count_zero s g p hclear habort]
  simp [List.countP_cons, harm]

theorem trigger_trace_arm_count (cfg : GroupConfig) (s : ChatState) (g : String) :
    (internal_triggerSupervisorDecisionDebounced cfg s g).2.countP isArmEv = 1 := by
  rw [trigger_trace_eq, List.countP_append,
    cancel_trace_count_zero s g isArmEv (fun _ => rfl) (fun _ => rfl)]
  simp [List.countP_cons, isArmEv]

theorem catch_trace_count_zero (s : ChatState) (g m : String) (p : Ev → Bool)
    (hlog : ∀ tag, p (Ev.logError tag) = false)
    (hdisp : ∀ a b c d, p (Ev.dispatchErrorUpdate a b c d) = false) :
    (internal_processAgentCatch s g m).2.countP p = 0 := by
  unfold internal_processAgentCatch
  cases hfind : ((alookup s.messagesMap g).getD []).find? (fun mm =>
      mm.role == Role.assistant && mm.groupId == some g &&
        mm.content == LOADING_FLAT) <;>
    simp [hfind, List.countP_cons, hlog, hdisp]

theorem processAgentTry_count_zero (env : Env) (s : ChatState) (g a : String)
    (t : Option String) (p : Ev → Bool)
    (hclear : ∀ t2, p (Ev.clearTimer t2) = false)
    (habort : ∀ t2, p (Ev.abortToken t2) = false)
    (harm : ∀ t2 g2 d, p (Ev.armTimer t2 g2 d) = false)
    (hlog : ∀ tag, p (Ev.logError tag) = false)
    (hcp : ∀ g2 a2, p (Ev.createPlaceholder g2 a2) = false)
    (hfm : ∀ a2, p (Ev.fetchMessage a2) = false)
    (hmt : ∀ m2, p (Ev.markToolsCalling m2) = false)
    (hrv : p Ev.refreshView = false)
    (hrt : ∀ m2, p (Ev.runToolCalls m2) = false) :
    (internal_processAgentTry env s g a t).2.1.countP p = 0 := by
  have htrig := trigger_trace_count_zero env.groupConfig s g p hclear habort harm
  unfold internal_processAgentTry
  repeat' split
  all_goals simp_all [List.countP_cons, List.countP_append]
  all_goals (split <;> simp_all)

theorem processAgentMessage_count (env : Env) (s : ChatState) (g a : String)
    (t : Option String) (p : Ev → Bool)
    (hclear : ∀ t2, p (Ev.clearTimer t2) = false)
    (habort : ∀ t2, p (Ev.abortToken t2) = false)
    (harm : ∀ t2 g2 d, p (Ev.armTimer t2 g2 d) = false)
    (hlog : ∀ tag, p (Ev.logError tag) = false)
    (hcp : ∀ g2 a2, p (Ev.createPlaceholder g2 a2) = false)
    (hfm : ∀ a2, p (Ev.fetchMessage a2) = false)
    (hmt : ∀ m2, p (Ev.markToolsCalling m2) = false)
    (hrv : p Ev.refreshView = false)
    (hrt : ∀ m2, p (Ev.runToolCalls m2) = false)
    (hdisp : ∀ a2 b c d, p (Ev.dispatchErrorUpdate a2 b c d) = false) :
    (internal_processAgentMessage env s g a t).2.countP p =
      (if p (Ev.taskDone a) then 1 else 0) := by
  have htry := processAgentTry_count_zero env s g a t p hclear habort harm hlog hcp
    hfm hmt hrv hrt
  unfold internal_processAgentMessage
  cases hthr : (internal_processAgentTry env s g a t).2.2 with
  | none =>
      simp only [hthr, List.countP_append, htry, List.countP_cons, List.countP_nil]
      cases hp : p (Ev.taskDone a) <;> simp [hp]
  | some m =>
      simp only [hthr, List.countP_append, htry,
        catch_trace_count_zero (internal_processAgentTry env s g a t).1 g m p hlog hdisp,
        List.countP_cons, List.countP_nil]
      cases hp : p (Ev.taskDone a) <;> simp [hp]

theorem runGroupTasks_taskDone_count (env : Env) (g : String) (ds : List Decision) :
    ∀ s : ChatState, (runGroupTasks env g ds s).2.countP isTaskDoneEv = ds.length := by
  induction ds with
  | nil => intro s; rfl
  | cons d ds ih =>
      intro s
      unfold runGroupTasks
      simp only [List.countP_cons, List.countP_append]
      rw [processAgentMessage_count env s g d.id d.target isTaskDoneEv
        (fun _ => rfl) (fun _ => rfl) (fun _ _ _ => rfl) (fun _ => rfl)
        (fun _ _ => rfl) (fun _ => rfl) (fun _ => rfl) rfl (fun _ => rfl)
        (fun _ _ _ _ => rfl), ih]
      simp [isTaskDoneEv, List.length_cons]
      try omega

theorem runGroupTasks_spawn_count (env : Env) (g : String) (ds : List Decision) :
    ∀ s : ChatState, (runGroupTasks env g ds s).2.countP isSpawnEv = ds.length := by
  induction ds with
  | nil => intro s; rfl
  | cons d ds ih =>
      intro s
      unfold runGroupTasks
      simp only [List.countP_cons, List.countP_append]
      rw [processAgentMessage_count env s g d.id d.target isSpawnEv
        (fun _ => rfl) (fun _ => rfl) (fun _ _ _ => rfl) (fun _ => rfl)
        (fun _ _ => rfl) (fun _ => rfl) (fun _ => rfl) rfl (fun _ => rfl)
        (fun _ _ _ _ => rfl), ih]
      simp [isSpawnEv, List.length_cons]
      try omega

/-! Claim C8: the debounce delay table. -/

/-- Claim C8: the debounce delay selected by the scheduler maps a
responseSpeed of fast to 3000 milliseconds, medium to 5000, slow to 8000,
and any other or unset value to 5000. -/
theorem c8_debounce_threshold_table :
    getDebounceThreshold (some "fast") = 3000 ∧
    getDebounceThreshold (some "medium") = 5000 ∧
    getDebounceThreshold (some "slow") = 8000 ∧
    ∀ rs : Option String, rs ≠ some "fast" → rs ≠ some "medium" → rs ≠ some "slow" →
      getDebounceThreshold rs = 5000 := by
  refine ⟨rfl, rfl, rfl, ?_⟩
  intro rs h1 h2 h3
  have hf : ¬((rs == some "fast") = true) := by simpa using h1
  have hm : ¬((rs == some "medium") = true) := by simpa using h2
  have hs : ¬((rs == some "slow") = true) := by simpa using h3
  simp [getDebounceThreshold, hf, hm, hs]

/-- Witness for C8 at two concrete inputs outside the three named speeds. -/
theorem c8_debounce_threshold_table_witness :
    getDebounceThreshold (some "turbo") = 5000 ∧ getDebounceThreshold none = 5000 :=
  ⟨c8_debounce_threshold_table.2.2.2 (some "turbo") (by decide) (by decide) (by decide),
   c8_debounce_threshold_table.2.2.2 none (by decide) (by decide) (by decide)⟩

/-! Claim C9: blank sends are complete no-ops. -/

/-- Claim C9: a sendGroupMessage call whose message text trims to empty and
whose file list is absent or empty returns immediately as a complete no-op:
the state is unchanged and the trace is empty, so no user message is
created, the decision scheduler is not armed, and isCreatingMessage is
never set. -/
theorem c9_sendGroupMessage_blank_noop (env : Env) (s : ChatState) (p : SendParams)
    (hmsg : ∀ c ∈ p.message.data, c.isWhitespace)
    (hfiles : p.files = none ∨ p.files = some []) :
    (sendGroupMessage env s p).1 = s ∧ (sendGroupMessage env s p).2 = [] := by
  have hblank : blankMessage p.message = true := by
    simpa [blankMessage, List.all_eq_true] using hmsg
  have hcond : (blankMessage p.message &&
      (match p.files with | none => true | some fs => fs.length == 0)) = true := by
    rcases hfiles with h | h <;> simp [hblank, h]
  constructor <;> simp [sendGroupMessage, hcond]

/-- Witness for C9: a concrete whitespace-only send changes nothing. -/
theorem c9_sendGroupMessage_blank_noop_witness :
    (sendGroupMessage envDefault stateDefault paramsC9).1 = stateDefault ∧
    (sendGroupMessage envDefault stateDefault paramsC9).2 = [] :=
  c9_sendGroupMessage_blank_noop envDefault stateDefault paramsC9 (by decide)
    (Or.inl rfl)

/-! Claim C5: cancelAll.  The source empties both registries and cancels all
timers and tokens, but — unlike the per-group cancel — it never touches the
loading flags, so the claim as stated fails. -/

/-- Claim C5 counterexample: on a state with an in-flight token for group g
and g's loading flag set, cancelAll aborts the token and empties the
registry but leaves the loading flag set, contradicting the claim that the
full per-group cancel (which clears the flag) is applied to every tracked
group. -/
theorem c5_counterexample :
    "g" ∈ stateC5.supervisorDecisionLoading ∧
    (internal_cancelAllSupervisorDecisions stateC5).1.supervisorDecisionAbortControllers
      = [] ∧
    0 ∈ (internal_cancelAllSupervisorDecisions stateC5).1.abortedTokens ∧
    (internal_cancelAllSupervisorDecisions stateC5).1.supervisorDecisionLoading
      = ["g"] := by
  decide

/-- Claim C5 (amended): cancelAll cancels every pending timer and aborts
every in-flight token across all groups and leaves both registry maps empty
afterward; the loading flags are left exactly as they were. -/
theorem c5_cancelAll_amended (s : ChatState) :
    (internal_cancelAllSupervisorDecisions s).1.supervisorDebounceTimers = [] ∧
    (internal_cancelAllSupervisorDecisions s).1.supervisorDecisionAbortControllers
      = [] ∧
    (∀ p ∈ s.supervisorDebounceTimers,
       p.2 ∈ (internal_cancelAllSupervisorDecisions s).1.cancelledTimers) ∧
    (∀ p ∈ s.supervisorDecisionAbortControllers,
       p.2 ∈ (internal_cancelAllSupervisorDecisions s).1.abortedTokens) ∧
    (internal_cancelAllSupervisorDecisions s).1.supervisorDecisionLoading
      = s.supervisorDecisionLoading := by
  unfold internal_cancelAllSupervisorDecisions
  by_cases hc : (decide (0 < (s.supervisorDebounceTimers.map (fun p => p.1)).length) ||
      decide (0 < (s.supervisorDecisionAbortControllers.map (fun p => p.1)).length))
      = true
  · rw [if_pos hc]
    refine ⟨rfl, rfl, ?_, ?_, rfl⟩
    · intro p hp
      simp only [List.mem_append]
      exact Or.inl (List.mem_map_of_mem _ hp)
    · intro p hp
      simp only [List.mem_append]
      exact Or.inl (List.mem_map_of_mem _ hp)
  · rw [if_neg hc]
    simp only [Bool.or_eq_true, decide_eq_true_eq, not_or, not_lt,
      Nat.le_zero, List.length_eq_zero, List.map_eq_nil_iff] at hc
    exact ⟨hc.1, hc.2, by simp [hc.1], by simp [hc.2], rfl⟩

/-- Witness for C5 (amended) at the concrete tracked state. -/
theorem c5_cancelAll_amended_witness :
    0 ∈ (internal_cancelAllSupervisorDecisions stateC5).1.abortedTokens ∧
    (internal_cancelAllSupervisorDecisions stateC5).1.supervisorDecisionLoading
      = stateC5.supervisorDecisionLoading :=
  ⟨(c5_cancelAll_amended stateC5).2.2.2.1 ("g", 0) (by decide),
   (c5_cancelAll_amended stateC5).2.2.2.2⟩

/-! Claim C6: the per-agent task error handler.  As stated the claim fails:
the catch block looks up the message list under the bare group id key — not
the (group, topic) key used everywhere else (the inconsistency the spec
flags as an open question) — and filters only on role, group and sentinel
content, never on the agent id, so a placeholder for this group and agent
stored under the proper key is not overwritten. -/

/-- Claim C6 counterexample: the completion call for agent a throws while a
pending placeholder for this group and agent, still holding the loading
sentinel, sits in the (group, topic)-keyed history; yet the task's whole
trace is just the two step events, the error log and the completion marker —
no overwrite is dispatched, because the handler's bare-group-id lookup finds
nothing. -/
theorem c6_counterexample :
    msgC6 ∈ (alookup stateC6.messagesMap
      (messageMapKey "g" stateC6.activeTopicId)).getD [] ∧
    msgC6.role = Role.assistant ∧ msgC6.agentId = some "a" ∧
    msgC6.content = LOADING_FLAT ∧
    (internal_processAgentTry envC6 stateC6 "g" "a" none).2.2 = some "boom" ∧
    (internal_processAgentMessage envC6 stateC6 "g" "a" none).2 =
      [Ev.createPlaceholder "g" "a", Ev.fetchMessage "a",
       Ev.logError "processAgentMessage", Ev.taskDone "a"] := by
  decide

/-- Claim C6 (amended): a per-agent task that raises an unhandled exception
catches it — the task still completes, its completion marker last, so
nothing propagates to siblings or callers — and logs the cause; the handler
then searches the message list stored under the bare group id key, not the
(group, topic) key used elsewhere, for the first assistant message of this
group still holding the loading sentinel, with no filter on the agent id;
when one is found, its content is overwritten with the user-visible error
notice plus the error-kind tag, and when the bare-key lookup yields nothing,
no message is overwritten. -/
theorem c6_error_handler (env : Env) (s : ChatState) (g a : String)
    (t : Option String) (m : String)
    (hthrow : (internal_processAgentTry env s g a t).2.2 = some m) :
    (internal_processAgentMessage env s g a t).2.getLast? = some (Ev.taskDone a) ∧
    Ev.logError "processAgentMessage" ∈ (internal_processAgentMessage env s g a t).2 ∧
    (∀ em, ((alookup (internal_processAgentTry env s g a t).1.messagesMap g).getD
        []).find? (fun mm => mm.role == Role.assistant && mm.groupId == some g &&
          mm.content == LOADING_FLAT) = some em →
      em.role = Role.assistant ∧ em.groupId = some g ∧ em.content = LOADING_FLAT ∧
      Ev.dispatchErrorUpdate em.id ("Error: Failed to generate response. " ++ m)
        "CreateMessageError" m ∈ (internal_processAgentMessage env s g a t).2) ∧
    (((alookup (internal_processAgentTry env s g a t).1.messagesMap g).getD
        []).find? (fun mm => mm.role == Role.assistant && mm.groupId == some g &&
          mm.content == LOADING_FLAT) = none →
      (internal_processAgentMessage env s g a t).2.countP isErrorDispatchEv = 0) := by
  have htrace : (internal_processAgentMessage env s g a t).2 =
      (internal_processAgentTry env s g a t).2.1 ++
      ((internal_processAgentCatch (internal_processAgentTry env s g a t).1 g m).2 ++
        [Ev.taskDone a]) := by
    simp only [internal_processAgentMessage, hthrow]
    rw [List.append_assoc]
  refine ⟨?_, ?_, ?_, ?_⟩
  · rw [htrace, ← List.append_assoc]
    simp
  · rw [htrace]
    refine List.mem_append_right _ (List.mem_append_left _ ?_)
    cases hfind : ((alookup (internal_processAgentTry env s g a t).1.messagesMap
        g).getD []).find? (fun mm => mm.role == Role.assistant &&
          mm.groupId == some g && mm.content == LOADING_FLAT) <;>
      simp [internal_processAgentCatch, hfind]
  · intro em hfind
    have hpred := List.find?_some hfind
    simp only [Bool.and_eq_true, beq_iff_eq] at hpred
    refine ⟨hpred.1.1, hpred.1.2, hpred.2, ?_⟩
    rw [htrace]
    refine List.mem_append_right _ (List.mem_append_left _ ?_)
    simp [internal_processAgentCatch, hfind]
  · intro hfind
    have htryz := processAgentTry_count_zero env s g a t isErrorDispatchEv
      (fun _ => rfl) (fun _ => rfl) (fun _ _ _ => rfl) (fun _ => rfl)
      (fun _ _ => rfl) (fun _ => rfl) (fun _ => rfl) rfl (fun _ => rfl)
    have hcatch : (internal_processAgentCatch
        (internal_processAgentTry env s g a t).1 g m).2 =
          [Ev.logError "processAgentMessage"] := by
      simp only [internal_processAgentCatch, hfind]
    rw [htrace, List.countP_append, htryz, hcatch]
    simp [isErrorDispatchEv]

/-- Witness for C6 (amended): the failing task for agent a completes and
dispatches the error overwrite onto agent b's bare-keyed placeholder. -/
theorem c6_error_handler_witness :
    (internal_processAgentMessage envC6 stateC6w "g" "a" none).2.getLast? =
      some (Ev.taskDone "a") ∧
    Ev.dispatchErrorUpdate "mb" ("Error: Failed to generate response. " ++ "boom")
      "CreateMessageError" "boom" ∈
      (internal_processAgentMessage envC6 stateC6w "g" "a" none).2 :=
  ⟨(c6_error_handler envC6 stateC6w "g" "a" none "boom" (by decide)).1,
   ((c6_error_handler envC6 stateC6w "g" "a" none "boom" (by decide)).2.2.1 msgC6b
     (by decide)).2.2.2⟩

/-! Claim C3: the supervisor invocation guard. -/

/-- Claim C3: when the group's current message history is empty, or its most
recent message has role tool or is an assistant message carrying a non-empty
tool-call list, internal_triggerSupervisorDecision returns with the state
unchanged — no decision call, no cancellation token, no loading flag — and
at most an informational skip log in the trace. -/
theorem c3_supervisor_guard (env : Env) (s : ChatState) (g : String)
    (hguard :
      (alookup s.messagesMap (messageMapKey g s.activeTopicId)).getD [] = [] ∨
      ∃ m, ((alookup s.messagesMap (messageMapKey g s.activeTopicId)).getD []).getLast?
          = some m ∧
        (m.role = Role.tool ∨
         (m.role = Role.assistant ∧ ∃ ts, m.tools = some ts ∧ ts ≠ []))) :
    (internal_triggerSupervisorDecision env s g).1 = s ∧
    ∀ e ∈ (internal_triggerSupervisorDecision env s g).2,
      e = Ev.logInfo "skipSupervisorDecision" := by
  rcases hguard with hempty | ⟨m, hlast, hrole⟩
  · constructor <;> simp [internal_triggerSupervisorDecision, hempty]
  · have hne : ((alookup s.messagesMap (messageMapKey g s.activeTopicId)).getD []).length
        ≠ 0 := by
      intro h0
      rw [List.length_eq_zero] at h0
      rw [h0] at hlast
      simp at hlast
    have havoid : shouldAvoidSupervisorDecision
        ((alookup s.messagesMap (messageMapKey g s.activeTopicId)).getD []) = true := by
      unfold shouldAvoidSupervisorDecision
      rw [if_neg (by simpa using hne), hlast]
      rcases hrole with htool | ⟨hassist, ts, hts, htsne⟩
      · by_cases htc : isToolCallMessage m = true
        · simp [htc]
        · simp [htc, htool]
      · have htc : isToolCallMessage m = true := by
          unfold isToolCallMessage
          rw [hts, hassist]
          simp [List.length_pos, htsne]
        simp [htc]
    constructor <;>
      simp [internal_triggerSupervisorDecision, havoid, if_neg (by simpa using hne)]

/-- Witness for C3: on the concrete tool-terminated history, the run leaves
the state untouched. -/
theorem c3_supervisor_guard_witness :
    (internal_triggerSupervisorDecision envDefault stateC3 "g").1 = stateC3 :=
  (c3_supervisor_guard envDefault stateC3 "g"
    (Or.inr ⟨{ id := "t1", role := Role.tool, content := "r" }, by decide,
      Or.inl rfl⟩)).1

/-! Claim C10: the only-add-user-message branch.  As stated the claim fails:
a call with onlyAddUserMessage set but a blank message and no files returns
before creating anything. -/

/-- Claim C10 counterexample: with onlyAddUserMessage set but a blank
message and no files, sendGroupMessage is a complete no-op — no user
message is created — contradicting the claim that every onlyAddUserMessage
call creates the user message. -/
theorem c10_counterexample :
    paramsC10.onlyAddUserMessage = true ∧
    (sendGroupMessage envDefault stateDefault paramsC10).2 = [] ∧
    (sendGroupMessage envDefault stateDefault paramsC10).1 = stateDefault := by
  decide

/-- Claim C10 (amended): for every sendGroupMessage call with
onlyAddUserMessage set that passes the non-blank guard (message text not
whitespace-only, or a non-empty file list), the user-message creation call
is issued, isCreatingMessage is false on return, and the debounced decision
scheduler is never armed, so no supervisor decision and no agent responses
follow from that call. -/
theorem c10_only_add_user_message (env : Env) (s : ChatState) (p : SendParams)
    (honly : p.onlyAddUserMessage = true)
    (hguard : (blankMessage p.message &&
      (match p.files with | none => true | some fs => fs.length == 0)) = false) :
    Ev.createUserMessage p.groupId ∈ (sendGroupMessage env s p).2 ∧
    (sendGroupMessage env s p).1.isCreatingMessage = false ∧
    (sendGroupMessage env s p).2.countP isArmEv = 0 := by
  unfold sendGroupMessage
  rw [if_neg (by simp [hguard])]
  cases env.createUserResult with
  | failure m => exact ⟨by simp, rfl, by simp [isArmEv]⟩
  | ok mid => exact ⟨by simp [honly], by simp [honly], by simp [honly, isArmEv]⟩

/-- Witness for C10 (amended) on a concrete non-blank call. -/
theorem c10_only_add_user_message_witness :
    Ev.createUserMessage paramsC10b.groupId ∈
      (sendGroupMessage envDefault stateDefault paramsC10b).2 ∧
    (sendGroupMessage envDefault stateDefault paramsC10b).1.isCreatingMessage = false ∧
    (sendGroupMessage envDefault stateDefault paramsC10b).2.countP isArmEv = 0 :=
  c10_only_add_user_message envDefault stateDefault paramsC10b rfl (by decide)

/-! Claim C2: executor fan-out, wait-all, and the post-batch re-arm. -/

/-- Claim C2: for a decision list of length N the executor spawns exactly N
per-agent tasks and all N settle even when some fail (the environment is
arbitrary, including failing creation and completion calls, which the
per-task catch absorbs without affecting siblings); the trace decomposes
into the tasks part, holding all N spawn and N completion events, followed
by an arming part with exactly one scheduler-arm event, present exactly when
N is positive; a zero-length list makes the run a complete no-op with no
tasks and no re-arm. -/
theorem c2_executor_fan_out (env : Env) (s : ChatState) (g : String)
    (ds : List Decision) :
    (internal_executeAgentResponses env s g ds).2.countP isSpawnEv = ds.length ∧
    (internal_executeAgentResponses env s g ds).2.countP isTaskDoneEv = ds.length ∧
    (ds = [] → internal_executeAgentResponses env s g ds = (s, [])) ∧
    (ds ≠ [] → ∃ evsT evsA,
      (internal_executeAgentResponses env s g ds).2 = evsT ++ evsA ∧
      evsT.countP isTaskDoneEv = ds.length ∧
      evsT.countP isSpawnEv = ds.length ∧
      evsA.countP isTaskDoneEv = 0 ∧
      evsA.countP isSpawnEv = 0 ∧
      evsA.countP isArmEv = 1 ∧
      ∃ tid, Ev.armTimer tid g (getDebounceThreshold env.groupConfig.responseSpeed)
        ∈ evsA) := by
  cases ds with
  | nil => exact ⟨rfl, rfl, fun _ => rfl, fun h => absurd rfl h⟩
  | cons d ds2 =>
      have e1 : (internal_executeAgentResponses env s g (d :: ds2)).2 =
          (runGroupTasks env g (d :: ds2) s).2 ++
          (internal_triggerSupervisorDecisionDebounced env.groupConfig
            (runGroupTasks env g (d :: ds2) s).1 g).2 := by
        unfold internal_executeAgentResponses
        rw [if_pos (by simp)]
      have hts := runGroupTasks_taskDone_count env g (d :: ds2) s
      have hsp := runGroupTasks_spawn_count env g (d :: ds2) s
      have hz1 := trigger_trace_count_zero env.groupConfig
        (runGroupTasks env g (d :: ds2) s).1 g isTaskDoneEv
        (fun _ => rfl) (fun _ => rfl) (fun _ _ _ => rfl)
      have hz2 := trigger_trace_count_zero env.groupConfig
        (runGroupTasks env g (d :: ds2) s).1 g isSpawnEv
        (fun _ => rfl) (fun _ => rfl) (fun _ _ _ => rfl)
      have ha := trigger_trace_arm_count env.groupConfig
        (runGroupTasks env g (d :: ds2) s).1 g
      refine ⟨?_, ?_, fun h => absurd h (by simp), fun _ => ?_⟩
      · rw [e1, List.countP_append, hsp, hz2]
        simp
      · rw [e1, List.countP_append, hts, hz1]
        simp
      · refine ⟨(runGroupTasks env g (d :: ds2) s).2,
          (internal_triggerSupervisorDecisionDebounced env.groupConfig
            (runGroupTasks env g (d :: ds2) s).1 g).2, e1, hts, hsp, hz1, hz2, ha, ?_⟩
        rw [trigger_trace_eq]
        exact ⟨(internal_cancelSupervisorDecision
            (runGroupTasks env g (d :: ds2) s).1 g).1.nextTimerId,
          List.mem_append_right _ (by simp)⟩

/-- Witness for C2: two decisions, one failing task; both settle and exactly
one post-batch arm occurs; the empty decision list is a no-op. -/
theorem c2_executor_fan_out_witness :
    (internal_executeAgentResponses envC2 stateC2 "g"
        [{ id := "a" }, { id := "b" }]).2.countP isSpawnEv = 2 ∧
    (internal_executeAgentResponses envC2 stateC2 "g"
        [{ id := "a" }, { id := "b" }]).2.countP isTaskDoneEv = 2 ∧
    internal_executeAgentResponses envC2 stateC2 "g" [] = (stateC2, []) ∧
    (∃ evsT evsA,
      (internal_executeAgentResponses envC2 stateC2 "g"
          [{ id := "a" }, { id := "b" }]).2 = evsT ++ evsA ∧
      evsT.countP isTaskDoneEv = 2 ∧
      evsT.countP isSpawnEv = 2 ∧
      evsA.countP isTaskDoneEv = 0 ∧
      evsA.countP isSpawnEv = 0 ∧
      evsA.countP isArmEv = 1 ∧
      ∃ tid, Ev.armTimer tid "g" (getDebounceThreshold envC2.groupConfig.responseSpeed)
        ∈ evsA) :=
  ⟨(c2_executor_fan_out envC2 stateC2 "g" [{ id := "a" }, { id := "b" }]).1,
   (c2_executor_fan_out envC2 stateC2 "g" [{ id := "a" }, { id := "b" }]).2.1,
   (c2_executor_fan_out envC2 stateC2 "g" []).2.2.1 rfl,
   (c2_executor_fan_out envC2 stateC2 "g" [{ id := "a" }, { id := "b" }]).2.2.2
     (by simp)⟩

/-! Claim C7: the tool-call branch of a per-agent task. -/

/-- Claim C7: a per-agent task whose completion result indicates a function
call marks the placeholder as in tool-calling state, refreshes the message
view, invokes the tool-call collaborator, then arms the scheduler inside its
own trace — before its own completion event, hence without waiting for
sibling tasks in its batch — and returns without falling through to the
normal-completion step (exactly one refresh in its whole trace); a task
whose completion result indicates no function call performs the
normal-completion refresh and emits no scheduler-arm event itself. -/
theorem c7_tool_call_branch (env : Env) (s : ChatState) (g a : String)
    (t : Option String) (A : Agent) (pr md mid : String)
    (hmsgs : ((alookup s.messagesMap (messageMapKey g s.activeTopicId)).getD
      []).length ≠ 0)
    (hfind : env.agents.find? (fun x => x.id == a) = some A)
    (hpr : presence A.provider = some pr)
    (hmd : presence A.model = some md)
    (hcreate : env.createAgentResult a = CreateResult.ok (some mid)) :
    (env.fetchResult a = FetchResult.ok true →
      (internal_processAgentMessage env s g a t).2 =
        [Ev.createPlaceholder g a, Ev.fetchMessage a, Ev.markToolsCalling mid,
         Ev.refreshView, Ev.runToolCalls mid] ++
        (internal_cancelSupervisorDecision s g).2 ++
        [Ev.armTimer (internal_cancelSupervisorDecision s g).1.nextTimerId g
           (getDebounceThreshold env.groupConfig.responseSpeed),
         Ev.taskDone a] ∧
      (internal_processAgentMessage env s g a t).2.countP isRefreshEv = 1) ∧
    (env.fetchResult a = FetchResult.ok false →
      (internal_processAgentMessage env s g a t).2 =
        [Ev.createPlaceholder g a, Ev.fetchMessage a, Ev.refreshView,
         Ev.taskDone a] ∧
      (internal_processAgentMessage env s g a t).2.countP isArmEv = 0) := by
  have hlen : ((((alookup s.messagesMap (messageMapKey g s.activeTopicId)).getD
      []).length == 0) : Bool) = false := by simpa using hmsgs
  constructor
  · intro hf
    have htry : internal_processAgentTry env s g a t =
        ((internal_triggerSupervisorDecisionDebounced env.groupConfig s g).1,
         [Ev.createPlaceholder g a, Ev.fetchMessage a, Ev.markToolsCalling mid,
          Ev.refreshView, Ev.runToolCalls mid] ++
          (internal_triggerSupervisorDecisionDebounced env.groupConfig s g).2,
         none) := by
      simp only [internal_processAgentTry, hlen, Bool.false_eq_true, if_false,
        hfind, hpr, hmd, hcreate, hf, if_true]
    have htrace : (internal_processAgentMessage env s g a t).2 =
        ([Ev.createPlaceholder g a, Ev.fetchMessage a, Ev.markToolsCalling mid,
          Ev.refreshView, Ev.runToolCalls mid] ++
          (internal_triggerSupervisorDecisionDebounced env.groupConfig s g).2) ++
        [Ev.taskDone a] := by
      unfold internal_processAgentMessage
      rw [htry]
    have hcz := cancel_trace_count_zero s g isRefreshEv (fun _ => rfl) (fun _ => rfl)
    constructor
    · rw [htrace, trigger_trace_eq]
      simp [List.append_assoc]
    · rw [htrace, trigger_trace_eq]
      simp [List.countP_append, List.countP_cons, hcz, isRefreshEv]
  · intro hf
    have htry : internal_processAgentTry env s g a t =
        (s, [Ev.createPlaceholder g a, Ev.fetchMessage a, Ev.refreshView], none) := by
      simp only [internal_processAgentTry, hlen, Bool.false_eq_true, if_false,
        hfind, hpr, hmd, hcreate, hf, if_false]
    have htrace : (internal_processAgentMessage env s g a t).2 =
        [Ev.createPlaceholder g a, Ev.fetchMessage a, Ev.refreshView] ++
        [Ev.taskDone a] := by
      unfold internal_processAgentMessage
      rw [htry]
    constructor
    · rw [htrace]
      simp
    · rw [htrace]
      simp [List.countP_append, List.countP_cons, isArmEv]

/-- Witness for C7 on a concrete function-call completion. -/
theorem c7_tool_call_branch_witness :
    (internal_processAgentMessage envC7 stateC7 "g" "a" none).2 =
      [Ev.createPlaceholder "g" "a", Ev.fetchMessage "a", Ev.markToolsCalling "mid",
       Ev.refreshView, Ev.runToolCalls "mid"] ++
      (internal_cancelSupervisorDecision stateC7 "g").2 ++
      [Ev.armTimer (internal_cancelSupervisorDecision stateC7 "g").1.nextTimerId "g"
         (getDebounceThreshold envC7.groupConfig.responseSpeed),
       Ev.taskDone "a"] ∧
    (internal_processAgentMessage envC7 stateC7 "g" "a" none).2.countP isRefreshEv
      = 1 :=
  (c7_tool_call_branch envC7 stateC7 "g" "a" none
    { id := "a", provider := some "p", model := some "m" } "p" "m" "mid"
    (by decide) (by decide) (by decide) (by decide) (by decide)).1 rfl

/-! Claim C4: completion paths of the supervisor invocation. -/

/-- Claim C4: every supervisor invocation that proceeds past the guard
clears the group's loading flag and removes its cancellation token from the
registry on every completion path (success, cancellation-flavored failure,
or any other failure, via the finally block); and on a cancellation-flavored
failure specifically the whole trace is the decision call plus one
informational log — no placeholder is created, no agent executes, and no
reportable error is logged. -/
theorem c4_supervisor_completion (env : Env) (s : ChatState) (g : String)
    (hne : ((alookup s.messagesMap (messageMapKey g s.activeTopicId)).getD []).length
      ≠ 0)
    (havoid : shouldAvoidSupervisorDecision
        ((alookup s.messagesMap (messageMapKey g s.activeTopicId)).getD []) = false) :
    alookup
        (internal_triggerSupervisorDecision env s g).1.supervisorDecisionAbortControllers
        g = none ∧
    g ∉ (internal_triggerSupervisorDecision env s g).1.supervisorDecisionLoading ∧
    (env.decideResult = DecideResult.abortError →
      (internal_triggerSupervisorDecision env s g).2 =
        [Ev.decideCalled g, Ev.logInfo "supervisorAborted"]) := by
  unfold internal_triggerSupervisorDecision
  rw [if_neg (by simpa using hne), if_neg (by simp [havoid])]
  refine ⟨alookup_aerase_self _ _, not_mem_toggleBooleanList_false _ _, ?_⟩
  intro hdec
  simp [hdec]

/-- Witness for C4 on a concrete aborted invocation. -/
theorem c4_supervisor_completion_witness :
    alookup
        (internal_triggerSupervisorDecision envC4 stateC4 "g").1.supervisorDecisionAbortControllers
        "g" = none ∧
    "g" ∉ (internal_triggerSupervisorDecision envC4 stateC4 "g").1.supervisorDecisionLoading ∧
    (internal_triggerSupervisorDecision envC4 stateC4 "g").2 =
      [Ev.decideCalled "g", Ev.logInfo "supervisorAborted"] :=
  ⟨(c4_supervisor_completion envC4 stateC4 "g" (by decide) (by decide)).1,
   (c4_supervisor_completion envC4 stateC4 "g" (by decide) (by decide)).2.1,
   (c4_supervisor_completion envC4 stateC4 "g" (by decide) (by decide)).2.2 rfl⟩

/-! Claim C1: the single-slot debounce registry.  State-shape lemmas for the
per-group cancel and the debounced trigger, then the bookkeeping invariant
and the two-rapid-triggers property. -/

theorem cancel_state_eq (s : ChatState) (g : String) :
    (internal_cancelSupervisorDecision s g).1 =
      { s with
        supervisorDebounceTimers := aerase s.supervisorDebounceTimers g,
        supervisorDecisionAbortControllers :=
          aerase s.supervisorDecisionAbortControllers g,
        supervisorDecisionLoading :=
          toggleBooleanList s.supervisorDecisionLoading g false,
        cancelledTimers := (match alookup s.supervisorDebounceTimers g with
          | some t => [t] | none => []) ++ s.cancelledTimers,
        abortedTokens := (match alookup s.supervisorDecisionAbortControllers g with
          | some tk => [tk] | none => []) ++ s.abortedTokens } := by
  cases ht : alookup s.supervisorDebounceTimers g with
  | none =>
      cases hc : alookup s.supervisorDecisionAbortControllers g with
      | none =>
          simp [internal_cancelSupervisorDecision, internal_toggleSupervisorLoading,
            ht, hc, aerase_eq_of_alookup_none ht, aerase_eq_of_alookup_none hc]
      | some tk =>
          simp [internal_cancelSupervisorDecision, internal_toggleSupervisorLoading,
            ht, hc, aerase_eq_of_alookup_none ht]
  | some t =>
      cases hc : alookup s.supervisorDecisionAbortControllers g with
      | none =>
          simp [internal_cancelSupervisorDecision, internal_toggleSupervisorLoading,
            ht, hc, aerase_eq_of_alookup_none hc]
      | some tk =>
          simp [internal_cancelSupervisorDecision, internal_toggleSupervisorLoading,
            ht, hc]

theorem trigger_state_eq (cfg : GroupConfig) (s : ChatState) (g : String) :
    (internal_triggerSupervisorDecisionDebounced cfg s g).1 =
      { s with
        supervisorDebounceTimers := aset s.supervisorDebounceTimers g s.nextTimerId,
        supervisorDecisionAbortControllers :=
          aerase s.supervisorDecisionAbortControllers g,
        supervisorDecisionLoading :=
          toggleBooleanList s.supervisorDecisionLoading g false,
        nextTimerId := s.nextTimerId + 1,
        cancelledTimers := (match alookup s.supervisorDebounceTimers g with
          | some t => [t] | none => []) ++ s.cancelledTimers,
        abortedTokens := (match alookup s.supervisorDecisionAbortControllers g with
          | some tk => [tk] | none => []) ++ s.abortedTokens,
        armedTimers := (s.nextTimerId, g) :: s.armedTimers } := by
  unfold internal_triggerSupervisorDecisionDebounced
  simp [cancel_state_eq, aset_aerase]

theorem scheduledFor_trigger (cfg : GroupConfig) (s : ChatState) (g : String)
    (hB : TimerBookkeeping s) :
    scheduledFor (internal_triggerSupervisorDecisionDebounced cfg s g).1 g =
      [s.nextTimerId] := by
  obtain ⟨h1, h2, h3, h4⟩ := hB
  have hCfresh : ∀ u ∈ (match alookup s.supervisorDebounceTimers g with
      | some t => [t] | none => ([] : List Nat)), u < s.nextTimerId := by
    cases ht : alookup s.supervisorDebounceTimers g with
    | none => simp
    | some t =>
        intro u hu
        simp only [List.mem_singleton] at hu
        subst hu
        exact h3 (g, u) (mem_of_alookup_eq_some ht)
  rw [trigger_state_eq]
  unfold scheduledFor
  simp only [List.filter_cons]
  have hhead : (((s.nextTimerId, g).2 == g &&
      !(decide ((s.nextTimerId, g).1 ∈
        ((match alookup s.supervisorDebounceTimers g with
          | some t => [t] | none => []) ++ s.cancelledTimers)))) = true) := by
    rw [Bool.and_eq_true]
    refine ⟨by simp, ?_⟩
    rw [Bool.not_eq_true', decide_eq_false_iff_not]
    intro hmem
    rcases List.mem_append.mp hmem with hm | hm
    · exact Nat.lt_irrefl _ (hCfresh _ hm)
    · exact Nat.lt_irrefl _ (h2 _ hm)
  rw [if_pos hhead]
  have htail : List.filter (fun p => p.2 == g &&
      !(decide (p.1 ∈ ((match alookup s.supervisorDebounceTimers g with
        | some t => [t] | none => []) ++ s.cancelledTimers)))) s.armedTimers = [] := by
    rw [List.filter_eq_nil_iff]
    intro p hp hcontra
    rw [Bool.and_eq_true] at hcontra
    obtain ⟨hpg, hnc⟩ := hcontra
    rw [beq_iff_eq] at hpg
    rw [Bool.not_eq_true', decide_eq_false_iff_not] at hnc
    by_cases hcanc : p.1 ∈ s.cancelledTimers
    · exact hnc (List.mem_append_right _ hcanc)
    · have hreg := h4 p hp hcanc
      rw [hpg] at hreg
      refine hnc ?_
      rw [hreg]
      exact List.mem_append_left _ (List.mem_singleton.mpr rfl)
  rw [htail]
  simp

theorem timerBookkeeping_trigger (cfg : GroupConfig) (s : ChatState) (g : String)
    (hB : TimerBookkeeping s) :
    TimerBookkeeping (internal_triggerSupervisorDecisionDebounced cfg s g).1 := by
  obtain ⟨h1, h2, h3, h4⟩ := hB
  have hCfresh : ∀ u ∈ (match alookup s.supervisorDebounceTimers g with
      | some t => [t] | none => ([] : List Nat)), u < s.nextTimerId := by
    cases ht : alookup s.supervisorDebounceTimers g with
    | none => simp
    | some t =>
        intro u hu
        simp only [List.mem_singleton] at hu
        subst hu
        exact h3 (g, u) (mem_of_alookup_eq_some ht)
  rw [trigger_state_eq]
  refine ⟨?_, ?_, ?_, ?_⟩
  · intro p hp
    rcases List.mem_cons.mp hp with hh | hh
    · rw [hh]
      exact Nat.lt_succ_self _
    · exact Nat.lt_trans (h1 p hh) (Nat.lt_succ_self _)
  · intro t htm
    rcases List.mem_append.mp htm with hm | hm
    · exact Nat.lt_trans (hCfresh _ hm) (Nat.lt_succ_self _)
    · exact Nat.lt_trans (h2 _ hm) (Nat.lt_succ_self _)
  · intro p hp
    rcases List.mem_append.mp hp with hm | hm
    · exact Nat.lt_trans (h3 p (mem_of_mem_aerase hm)) (Nat.lt_succ_self _)
    · simp only [List.mem_singleton] at hm
      rw [hm]
      exact Nat.lt_succ_self _
  · intro p hp hnc
    rcases List.mem_cons.mp hp with hh | hh
    · rw [hh]
      exact alookup_aset_self _ _ _
    · have hncs : p.1 ∉ s.cancelledTimers := fun hmem =>
        hnc (List.mem_append_right _ hmem)
      have hreg := h4 p hh hncs
      by_cases hpg : p.2 = g
      · exfalso
        rw [hpg] at hreg
        apply hnc
        apply List.mem_append_left
        rw [hreg]
        exact List.mem_singleton.mpr rfl
      · rw [alookup_aset_ne _ _ _ _ hpg]
        exact hreg

/-- Claim C1: arming the debounced trigger aborts and removes the group's
in-flight cancellation token and leaves at most one registered timer; two
rapid trigger calls for the same group leave exactly one scheduled
invocation — the first call's timer is cancelled by the second — and that
survivor is the one armed by the most recent call.  The bookkeeping
hypothesis holds in every reachable state (all lists empty initially) and
is preserved by the trigger itself. -/
theorem c1_trigger_single_slot (cfg : GroupConfig) (s : ChatState) (g : String)
    (hB : TimerBookkeeping s) :
    (∀ tk, alookup s.supervisorDecisionAbortControllers g = some tk →
      tk ∈ (internal_triggerSupervisorDecisionDebounced cfg s g).1.abortedTokens) ∧
    alookup (internal_triggerSupervisorDecisionDebounced cfg
      s g).1.supervisorDecisionAbortControllers g = none ∧
    alookup (internal_triggerSupervisorDecisionDebounced cfg
      s g).1.supervisorDebounceTimers g = some s.nextTimerId ∧
    scheduledFor (internal_triggerSupervisorDecisionDebounced cfg s g).1 g =
      [s.nextTimerId] ∧
    TimerBookkeeping (internal_triggerSupervisorDecisionDebounced cfg s g).1 ∧
    s.nextTimerId ∈ (internal_triggerSupervisorDecisionDebounced cfg
      (internal_triggerSupervisorDecisionDebounced cfg s g).1 g).1.cancelledTimers ∧
    scheduledFor (internal_triggerSupervisorDecisionDebounced cfg
      (internal_triggerSupervisorDecisionDebounced cfg s g).1 g).1 g =
      [s.nextTimerId + 1] := by
  have hlk : alookup (internal_triggerSupervisorDecisionDebounced cfg
      s g).1.supervisorDebounceTimers g = some s.nextTimerId := by
    rw [trigger_state_eq]
    exact alookup_aset_self _ _ _
  have hB1 := timerBookkeeping_trigger cfg s g hB
  have hnext1 : (internal_triggerSupervisorDecisionDebounced cfg
      s g).1.nextTimerId = s.nextTimerId + 1 := by
    rw [trigger_state_eq]
  refine ⟨?_, ?_, hlk, scheduledFor_trigger cfg s g hB, hB1, ?_, ?_⟩
  · intro tk htk
    rw [trigger_state_eq]
    simp [htk]
  · rw [trigger_state_eq]
    exact alookup_aerase_self _ _
  · rw [trigger_state_eq (s := (internal_triggerSupervisorDecisionDebounced cfg
      s g).1)]
    simp only [hlk]
    exact List.mem_append_left _ (List.mem_singleton.mpr rfl)
  · rw [scheduledFor_trigger cfg _ g hB1, hnext1]

/-- Witness for C1: on the concrete state the old token is aborted and,
after two rapid triggers, exactly the second call's timer is scheduled. -/
theorem c1_trigger_single_slot_witness :
    5 ∈ (internal_triggerSupervisorDecisionDebounced {} stateC1 "g").1.abortedTokens ∧
    scheduledFor (internal_triggerSupervisorDecisionDebounced {} stateC1 "g").1 "g"
      = [1] ∧
    scheduledFor (internal_triggerSupervisorDecisionDebounced {}
      (internal_triggerSupervisorDecisionDebounced {} stateC1 "g").1 "g").1 "g"
      = [2] :=
  ⟨(c1_trigger_single_slot {} stateC1 "g"
      (by unfold TimerBookkeeping; decide)).1 5 (by decide),
   (c1_trigger_single_slot {} stateC1 "g"
      (by unfold TimerBookkeeping; decide)).2.2.2.1,
   (c1_trigger_single_slot {} stateC1 "g"
      (by unfold TimerBookkeeping; decide)).2.2.2.2.2.2⟩

end GroupChat
